import Mathlib

/-!
Verification of the `dr_ensenso` camera driver (`src/dr_ensenso/src/ensenso.cpp`).

We shallowly embed the driver's operations as pure Lean functions.  The vendor
SDK (`NxLib`) is an external collaborator: every interaction with it is either
a write into a command-parameter tree, the execution of a named command, or a
read/write of the camera's configuration tree.  We therefore model each driver
operation as a function that

* receives the device identity (serial numbers) and oracle values for
  everything the device returns (command results, read-back properties), and
* produces the ordered trace of device interactions (`Action`) it performs
  together with its return value (and, for state-mutating operations, the
  updated camera configuration state).

Rigid transforms (`Eigen::Isometry3d`) are modelled over `ℚ` with an explicit
3×3 rotation block and a translation vector; Eigen's `Isometry3d::inverse()`
uses the transpose of the rotation block, which we mirror.
-/

namespace DrEnsenso

/-- A 3-vector over `ℚ` (models the translation part of `Eigen::Isometry3d`). -/
structure Vec3 where
  x : ℚ
  y : ℚ
  z : ℚ
deriving DecidableEq, Repr

/-- A 3×3 matrix over `ℚ` (models the rotation block of `Eigen::Isometry3d`). -/
structure Mat3 where
  m00 : ℚ
  m01 : ℚ
  m02 : ℚ
  m10 : ℚ
  m11 : ℚ
  m12 : ℚ
  m20 : ℚ
  m21 : ℚ
  m22 : ℚ
deriving DecidableEq, Repr

/-- Matrix transpose. -/
def Mat3.transpose (a : Mat3) : Mat3 :=
  ⟨a.m00, a.m10, a.m20, a.m01, a.m11, a.m21, a.m02, a.m12, a.m22⟩

/-- Matrix-matrix product. -/
def Mat3.mul (a b : Mat3) : Mat3 :=
  ⟨a.m00 * b.m00 + a.m01 * b.m10 + a.m02 * b.m20,
   a.m00 * b.m01 + a.m01 * b.m11 + a.m02 * b.m21,
   a.m00 * b.m02 + a.m01 * b.m12 + a.m02 * b.m22,
   a.m10 * b.m00 + a.m11 * b.m10 + a.m12 * b.m20,
   a.m10 * b.m01 + a.m11 * b.m11 + a.m12 * b.m21,
   a.m10 * b.m02 + a.m11 * b.m12 + a.m12 * b.m22,
   a.m20 * b.m00 + a.m21 * b.m10 + a.m22 * b.m20,
   a.m20 * b.m01 + a.m21 * b.m11 + a.m22 * b.m21,
   a.m20 * b.m02 + a.m21 * b.m12 + a.m22 * b.m22⟩

/-- Matrix-vector product. -/
def Mat3.mulVec (a : Mat3) (v : Vec3) : Vec3 :=
  ⟨a.m00 * v.x + a.m01 * v.y + a.m02 * v.z,
   a.m10 * v.x + a.m11 * v.y + a.m12 * v.z,
   a.m20 * v.x + a.m21 * v.y + a.m22 * v.z⟩

/-- The identity matrix. -/
def Mat3.id : Mat3 := ⟨1, 0, 0, 0, 1, 0, 0, 0, 1⟩

/-- Vector addition. -/
def Vec3.add (a b : Vec3) : Vec3 := ⟨a.x + b.x, a.y + b.y, a.z + b.z⟩

/-- Vector negation. -/
def Vec3.neg (a : Vec3) : Vec3 := ⟨-a.x, -a.y, -a.z⟩

/-- Scalar multiple of a vector. -/
def Vec3.smul (s : ℚ) (a : Vec3) : Vec3 := ⟨s * a.x, s * a.y, s * a.z⟩

/-- A rigid transform: models `Eigen::Isometry3d` (rotation block + translation). -/
structure Iso where
  rot : Mat3
  trans : Vec3
deriving DecidableEq, Repr

/-- The identity transform. -/
def Iso.id : Iso := ⟨Mat3.id, ⟨0, 0, 0⟩⟩

/-- Composition of rigid transforms: `(a.comp b) v = a (b v)`
(models `operator*` on `Eigen::Isometry3d`). -/
def Iso.comp (a b : Iso) : Iso :=
  ⟨a.rot.mul b.rot, (a.rot.mulVec b.trans).add a.trans⟩

/-- Inverse of a rigid transform.  `Eigen::Isometry3d::inverse()` exploits the
isometry structure: the inverse rotation is the transpose, and the inverse
translation is `-(Rᵀ t)`. -/
def Iso.inverse (p : Iso) : Iso :=
  ⟨p.rot.transpose, (p.rot.transpose.mulVec p.trans).neg⟩

/-- Scale only the translation part (models `pose.translation() *= s`). -/
def Iso.scaleTrans (s : ℚ) (p : Iso) : Iso :=
  ⟨p.rot, Vec3.smul s p.trans⟩

/-- One component of an `NxLib` tree path: a named child or a numeric index. -/
inductive PathItem where
  | item (name : String)
  | idx (n : Nat)
deriving DecidableEq, Repr

/-- A path into an `NxLib` tree. -/
abbrev NxPath := List PathItem

/-- A value written into an `NxLib` tree node. -/
inductive NxValue where
  | str (s : String)
  | bool (b : Bool)
  | int (n : Int)
  | num (q : ℚ)
  | pose (p : Iso)
deriving DecidableEq, Repr

/-- One device interaction performed by the driver:
reading a camera-tree property, writing one, or executing a named `NxLib`
command with the parameter tree built for it (as an ordered write list). -/
inductive Action where
  | readCam (path : NxPath)
  | setCam (path : NxPath) (v : NxValue)
  | execute (cmd : String) (params : List (NxPath × NxValue))
deriving DecidableEq, Repr

/-- The device identity held by an `Ensenso` session: the stereo camera's
serial, and the serial of the linked monocular camera when one is present
(`monocular_camera` in the source; `none` models `boost::none`). -/
structure Device where
  serial : String
  monoSerial : Option String
deriving DecidableEq, Repr

/-- `Ensenso::monocularSerialNumber`: the monocular serial, or `""` when no
monocular camera is present. -/
def Device.monocularSerialNumber (dev : Device) : String :=
  match dev.monoSerial with
  | some s => s
  | none => ""

/-- The `Cameras[i]` parameter path. -/
def camerasIdx (i : Nat) : NxPath := [.item "Cameras", .idx i]

/-- The `Timeout` parameter path. -/
def timeoutPath : NxPath := [.item "Timeout"]

/-- The ordered `Cameras` parameter writes shared by `Ensenso::trigger` and
`Ensenso::retrieve`: the stereo serial at index 0 when `stereo` is set, the
monocular serial at index `stereo ? 1 : 0` when `monocular` is set. -/
def cameraListParams (dev : Device) (stereo monocular : Bool) : List (NxPath × NxValue) :=
  (if stereo then [(camerasIdx 0, NxValue.str dev.serial)] else []) ++
  (if monocular then
    [(camerasIdx (if stereo then 1 else 0), NxValue.str (dev.monoSerial.getD ""))]
   else [])

/-- `Ensenso::trigger`.  `triggered` is the oracle for the per-serial
`Triggered` flag in the command result.  Returns the interaction trace and the
boolean result. -/
def trigger (dev : Device) (triggered : String → Bool) (stereo monocular : Bool) :
    List Action × Bool :=
  let m := monocular && dev.monoSerial.isSome
  ([Action.execute "Trigger" (cameraListParams dev stereo m)],
   if stereo && !(triggered dev.serial) then false
   else if m && !(triggered dev.monocularSerialNumber) then false
   else true)

/-- `Ensenso::retrieve`.  `retrieved` is the oracle for the per-serial
`Retrieved` flag in the command result.  Returns the interaction trace and the
boolean result. -/
def retrieve (dev : Device) (retrieved : String → Bool)
    (trig : Bool) (timeout : Nat) (stereo monocular : Bool) :
    List Action × Bool :=
  let m := monocular && dev.monoSerial.isSome
  if !stereo && !m then ([], true)
  else
    ([Action.execute (if trig then "Capture" else "Retrieve")
       ((timeoutPath, NxValue.int timeout) :: cameraListParams dev stereo m)],
     if stereo && !(retrieved dev.serial) then false
     else if m && !(retrieved dev.monocularSerialNumber) then false
     else true)

/-- Camera-tree path `Parameters/Capture/FlexView`. -/
def flexViewPath : NxPath := [.item "Parameters", .item "Capture", .item "FlexView"]

/-- Camera-tree path `Parameters/Capture/FrontLight`. -/
def frontLightPath : NxPath := [.item "Parameters", .item "Capture", .item "FrontLight"]

/-- Camera-tree path `Parameters/Capture/Projector`. -/
def projectorPath : NxPath := [.item "Parameters", .item "Capture", .item "Projector"]

/-- `Ensenso::flexView`.  The source wraps `getNx<int>` in a `try`/`catch`:
when `FlexView = false` the integer read throws `NxError`, which is caught
locally and mapped to `-1`.  The oracle `flexRead` is `none` exactly when the
read throws, `some v` when the stored level is `v`. -/
def flexView (flexRead : Option Int) : Int :=
  match flexRead with
  | some v => v
  | none => -1

/-- `Ensenso::recordCalibrationPattern`: the ordered trace of device
interactions it performs.  `flexRead` is the oracle for the `FlexView` read,
`retrieved` the oracle for the inner `retrieve` command result (whose boolean
return value the source discards). -/
def recordCalibrationPattern (dev : Device) (flexRead : Option Int)
    (retrieved : String → Bool) : List Action :=
  let flex_view := flexView flexRead
  [Action.readCam flexViewPath] ++
  (if flex_view > 0 then [Action.setCam flexViewPath (NxValue.int 0)] else []) ++
  [Action.setCam projectorPath (NxValue.bool false),
   Action.setCam frontLightPath (NxValue.bool true)] ++
  (retrieve dev retrieved true 1500 true false).1 ++
  [Action.setCam frontLightPath (NxValue.bool false),
   Action.setCam projectorPath (NxValue.bool true),
   Action.execute "CollectPattern"
     [([.item "Cameras"], NxValue.str dev.serial),
      ([.item "DecodeData"], NxValue.bool true)]] ++
  (if flex_view > 0 then [Action.setCam flexViewPath (NxValue.int flex_view)] else [])

/-- The camera configuration state read by the workspace-calibration
operations: the `Link/Target` frame-name node (`none` models a node whose
`asString` reports an error) and the `Link` transform. -/
structure CamState where
  linkTarget : Option String
  link : Iso
deriving DecidableEq, Repr

/-- `Ensenso::getWorkspaceCalibrationFrame`: read `Link/Target` as a string,
returning `""` when the read reports an error. -/
def getWorkspaceCalibrationFrame (st : CamState) : String :=
  match st.linkTarget with
  | some s => s
  | none => ""

/-- `Ensenso::getWorkspaceCalibration`: `none` when the frame name is empty;
otherwise the `Link` transform with its translation rescaled from millimeters
to meters. -/
def getWorkspaceCalibration (st : CamState) : Option Iso :=
  if getWorkspaceCalibrationFrame st = "" then none
  else some (Iso.scaleTrans (1 / 1000) st.link)

/-- `Ensenso::storeWorkspaceCalibration`: the trace of the `StoreCalibration`
command (overwrite calibration and target link in EEPROM). -/
def storeWorkspaceCalibration (dev : Device) : List Action :=
  [Action.execute "StoreCalibration"
    [(camerasIdx 0, NxValue.str dev.serial),
     ([.item "Calibration", .idx 0], NxValue.bool true),
     ([.item "Link", .idx 0], NxValue.bool true)]]

/-- `Ensenso::clearWorkspaceCalibration`.  `eff` is the oracle for the
device-side effect of executing the `CalibrateWorkspace` command on the
camera configuration.  Returns the interaction trace and the final camera
configuration state. -/
def clearWorkspaceCalibration (dev : Device) (eff : CamState → CamState)
    (st : CamState) (store : Bool) : List Action × CamState :=
  if getWorkspaceCalibrationFrame st = "" then ([], st)
  else
    ([Action.execute "CalibrateWorkspace"
        [(camerasIdx 0, NxValue.str dev.serial), ([.item "Target"], NxValue.str "")],
      Action.setCam [.item "Link", .item "Target"]
        (NxValue.str (dev.serial ++ "_frame"))] ++
     (if store then storeWorkspaceCalibration dev else []),
     { eff st with linkTarget := some (dev.serial ++ "_frame") })

/-- `Ensenso::detectCalibrationPattern`.  The oracles: `flexReads k` is the
`FlexView` read seen by the `k`-th `recordCalibrationPattern` call and
`flexReads samples.toNat` the one seen by the post-loop read; `retrieved` is
the capture oracle; `rawPose` is `result()["Patterns"][0][PatternPose]` of the
`EstimatePatternPose` command.  Returns the interaction trace and the
resulting pose. -/
def detectCalibrationPattern (dev : Device) (st : CamState)
    (flexReads : Nat → Option Int) (retrieved : String → Bool) (rawPose : Iso)
    (samples : Int) (ignore_calibration : Bool) : List Action × Iso :=
  let n := samples.toNat
  let fv := flexView (flexReads n)
  let trace :=
    [Action.execute "DiscardPatterns" []] ++
    (List.range n).flatMap (fun k => recordCalibrationPattern dev (flexReads k) retrieved) ++
    [Action.readCam flexViewPath] ++
    (if fv > 0 then [Action.setCam flexViewPath (NxValue.int 0)] else []) ++
    [Action.execute "EstimatePatternPose" []] ++
    (if fv > 0 then [Action.setCam flexViewPath (NxValue.int fv)] else [])
  let result := Iso.scaleTrans (1 / 1000) rawPose
  let result :=
    if ignore_calibration then
      match getWorkspaceCalibration st with
      | some camera_pose => camera_pose.comp result
      | none => result
    else result
  (trace, result)

/-- The four corner coordinates written under
`Parameters/DisparityMap/AreaOfInterest`. -/
structure Aoi where
  leftTopX : Int
  leftTopY : Int
  rightBottomX : Int
  rightBottomY : Int
deriving DecidableEq, Repr

/-- The camera configuration touched by `Ensenso::setRegionOfInterest`: the
`UseDisparityMapAreaOfInterest` flag and the `AreaOfInterest` node (`none`
models an absent node). -/
structure RoiState where
  useDisparityMapAreaOfInterest : Bool
  areaOfInterest : Option Aoi
deriving DecidableEq, Repr

/-- `cv::Rect`: origin plus extent, in pixels. -/
structure Rect where
  x : Int
  y : Int
  width : Int
  height : Int
deriving DecidableEq, Repr

/-- `cv::Rect::area()`. -/
def Rect.area (r : Rect) : Int := r.width * r.height

/-- `cv::Rect()`: the default (empty) rectangle, used to request an
unrestricted region of interest. -/
def unrestrictedRect : Rect := ⟨0, 0, 0, 0⟩

/-- `Ensenso::setRegionOfInterest`: an empty rectangle disables the
area-of-interest flag and erases the `AreaOfInterest` node when it exists; a
rectangle of nonzero area enables the flag and writes the top-left
(`roi.tl()`) and bottom-right (`roi.br()`) corners. -/
def setRegionOfInterest (_st : RoiState) (roi : Rect) : RoiState :=
  if roi.area = 0 then
    { useDisparityMapAreaOfInterest := false, areaOfInterest := none }
  else
    { useDisparityMapAreaOfInterest := true,
      areaOfInterest := some ⟨roi.x, roi.y, roi.x + roi.width, roi.y + roi.height⟩ }

/-- The oracle values returned by a successful `CalibrateHandEye` run: the
`Link` node of the camera tree after the command, and the command result's
`PatternPose`, `Iterations` and `ReprojectionError` fields. -/
structure CalibResponse where
  link : Iso
  patternPose : Iso
  iterations : Int
  reprojectionError : ℚ
deriving DecidableEq, Repr

/-- `Ensenso::CalibrationResult`: camera pose, pattern pose, iteration count,
reprojection error. -/
structure CalibrationResult where
  camera_pose : Iso
  pattern_pose : Iso
  iterations : Int
  reprojectionError : ℚ
deriving DecidableEq, Repr

/-- The ordered `Transformations[i]` parameter writes of
`Ensenso::computeCalibration`: each robot pose, translation scaled to
millimeters, at its own index. -/
def robotPoseParams (robot_poses : List Iso) : List (NxPath × NxValue) :=
  (List.range robot_poses.length).map fun i =>
    ([.item "Transformations", .idx i],
     NxValue.pose (Iso.scaleTrans 1000 (robot_poses.getD i Iso.id)))

/-- The full ordered parameter list of the `CalibrateHandEye` command built by
`Ensenso::computeCalibration`. -/
def handEyeParams (robot_poses : List Iso) (moving : Bool)
    (camera_guess pattern_guess : Option Iso) (target : String) :
    List (NxPath × NxValue) :=
  (match camera_guess with
   | some g => [([.item "Link"], NxValue.pose (Iso.scaleTrans 1000 g))]
   | none => []) ++
  (match pattern_guess with
   | some g => [([.item "PatternPose"], NxValue.pose (Iso.scaleTrans 1000 g))]
   | none => []) ++
  [([.item "Setup"], NxValue.str (if moving then "Moving" else "Fixed"))] ++
  (if target = "" then [] else [([.item "Target"], NxValue.str target)]) ++
  robotPoseParams robot_poses

/-- `Ensenso::computeCalibration`: builds the `CalibrateHandEye` parameters,
executes the command, then reads back the camera tree's `Link` transform,
inverts it, rescales translations to meters and packages the result.  `resp`
is the oracle for everything the solver produced. -/
def computeCalibration (resp : CalibResponse) (robot_poses : List Iso)
    (moving : Bool) (camera_guess pattern_guess : Option Iso) (target : String) :
    List Action × CalibrationResult :=
  ([Action.execute "CalibrateHandEye"
      (handEyeParams robot_poses moving camera_guess pattern_guess target)],
   { camera_pose := Iso.scaleTrans (1 / 1000) resp.link.inverse,
     pattern_pose := Iso.scaleTrans (1 / 1000) resp.patternPose,
     iterations := resp.iterations,
     reprojectionError := resp.reprojectionError })

/-- Whether an action is an execution of the `CollectPattern` command (the
device-side recording of one calibration-pattern observation). -/
def Action.isCollectPattern : Action → Bool
  | .execute cmd _ => cmd == "CollectPattern"
  | _ => false

/-! ### Theorems -/

/-- Claim C3: every call to `retrieve` first forces the monocular flag to
`false` when no monocular camera is present; after this narrowing, if no
device is addressed the call returns `true` without issuing any command, and
otherwise it returns `true` iff every addressed device's `Retrieved` flag in
the command result is set. -/
theorem retrieve_success_iff (dev : Device) (retrieved : String → Bool)
    (trig : Bool) (timeout : Nat) (stereo monocular : Bool) :
    (dev.monoSerial = none →
      retrieve dev retrieved trig timeout stereo monocular =
        retrieve dev retrieved trig timeout stereo false) ∧
    (stereo = false → (monocular && dev.monoSerial.isSome) = false →
      retrieve dev retrieved trig timeout stereo monocular = ([], true)) ∧
    ((retrieve dev retrieved trig timeout stereo monocular).2 = true ↔
      ((stereo = true → retrieved dev.serial = true) ∧
       ((monocular && dev.monoSerial.isSome) = true →
         retrieved dev.monocularSerialNumber = true))) := by
  refine ⟨fun h => by simp [retrieve, h], fun hs hm => by simp [retrieve, hs, hm], ?_⟩
  cases stereo <;> cases monocular <;> cases h : dev.monoSerial.isSome <;>
    cases h1 : retrieved dev.serial <;> cases h2 : retrieved dev.monocularSerialNumber <;>
      simp [retrieve, h, h1, h2]

/-- Claim C3 witness: a concrete run with no device addressed is a trivially
successful no-op. -/
theorem retrieve_success_iff_witness :
    retrieve ⟨"ens", none⟩ (fun _ => false) true 1500 false true = ([], true) :=
  (retrieve_success_iff ⟨"ens", none⟩ (fun _ => false) true 1500 false true).2.1
    rfl (by simp)

/-- Claim C4: in every trigger/capture command addressing both devices, the
stereo serial is written at `Cameras[0]` and the monocular serial at
`Cameras[1]`; when only the monocular device is addressed, its serial is
written at `Cameras[0]`. -/
theorem camera_index_order (dev : Device) (ms : String)
    (triggered retrieved : String → Bool) (trig : Bool) (timeout : Nat)
    (h : dev.monoSerial = some ms) :
    (trigger dev triggered true true).1 =
      [Action.execute "Trigger"
        [(camerasIdx 0, NxValue.str dev.serial), (camerasIdx 1, NxValue.str ms)]] ∧
    (trigger dev triggered false true).1 =
      [Action.execute "Trigger" [(camerasIdx 0, NxValue.str ms)]] ∧
    (retrieve dev retrieved trig timeout true true).1 =
      [Action.execute (if trig then "Capture" else "Retrieve")
        [(timeoutPath, NxValue.int timeout),
         (camerasIdx 0, NxValue.str dev.serial), (camerasIdx 1, NxValue.str ms)]] ∧
    (retrieve dev retrieved trig timeout false true).1 =
      [Action.execute (if trig then "Capture" else "Retrieve")
        [(timeoutPath, NxValue.int timeout), (camerasIdx 0, NxValue.str ms)]] := by
  refine ⟨?_, ?_, ?_, ?_⟩ <;> simp [trigger, retrieve, cameraListParams, h]

/-- Claim C4 witness: the index contract at a concrete device pair. -/
theorem camera_index_order_witness :
    (trigger ⟨"ens", some "mono"⟩ (fun _ => true) true true).1 =
      [Action.execute "Trigger"
        [(camerasIdx 0, NxValue.str "ens"), (camerasIdx 1, NxValue.str "mono")]] :=
  (camera_index_order ⟨"ens", some "mono"⟩ "mono" (fun _ => true) (fun _ => true)
    true 1500 rfl).1

/-- Claim C10: unlike `retrieve`, `trigger` has no early return when no device
is addressed: with both flags `false` (or the monocular flag narrowed to
`false` by device absence) it still executes a `Trigger` command naming no
cameras, and returns `true`; `retrieve` in the same situation issues nothing. -/
theorem trigger_no_early_return (dev : Device) (triggered retrieved : String → Bool)
    (trig : Bool) (timeout : Nat) :
    trigger dev triggered false false = ([Action.execute "Trigger" []], true) ∧
    (dev.monoSerial = none →
      trigger dev triggered false true = ([Action.execute "Trigger" []], true)) ∧
    retrieve dev retrieved trig timeout false false = ([], true) := by
  refine ⟨by simp [trigger, cameraListParams], fun h => by simp [trigger, cameraListParams, h],
    by simp [retrieve]⟩

/-- Claim C10 witness: a concrete monocular-absent device, with the monocular
flag requested, still executes an empty `Trigger` command and returns `true`. -/
theorem trigger_no_early_return_witness :
    trigger ⟨"ens", none⟩ (fun _ => false) false true = ([Action.execute "Trigger" []], true) :=
  (trigger_no_early_return ⟨"ens", none⟩ (fun _ => false) (fun _ => false) true 0).2.1 rfl

/-- Claim C5: `recordCalibrationPattern` performs exactly: read the flex-view
level, set it to 0 when it was positive, disable the projector and enable the
front light, run a stereo-only triggered capture with a 1500 ms timeout,
disable the front light and re-enable the projector, issue a `CollectPattern`
command with decoding enabled scoped to the stereo serial, and restore the
saved flex-view level iff it was positive. -/
theorem recordCalibrationPattern_sequence (dev : Device) (flexRead : Option Int)
    (retrieved : String → Bool) :
    recordCalibrationPattern dev flexRead retrieved =
      [Action.readCam flexViewPath] ++
      (if flexView flexRead > 0 then [Action.setCam flexViewPath (NxValue.int 0)] else []) ++
      [Action.setCam projectorPath (NxValue.bool false),
       Action.setCam frontLightPath (NxValue.bool true),
       Action.execute "Capture"
         [(timeoutPath, NxValue.int 1500), (camerasIdx 0, NxValue.str dev.serial)],
       Action.setCam frontLightPath (NxValue.bool false),
       Action.setCam projectorPath (NxValue.bool true),
       Action.execute "CollectPattern"
         [([.item "Cameras"], NxValue.str dev.serial),
          ([.item "DecodeData"], NxValue.bool true)]] ++
      (if flexView flexRead > 0 then
        [Action.setCam flexViewPath (NxValue.int (flexView flexRead))] else []) := by
  by_cases h : flexView flexRead > 0 <;>
    simp [recordCalibrationPattern, retrieve, cameraListParams, h]

/-- Claim C9: a failing flex-view property read is absorbed locally and mapped
to the sentinel `-1`; a successful read returns the stored level unchanged. -/
theorem flexView_sentinel (flexRead : Option Int) :
    (flexRead = none → flexView flexRead = -1) ∧
    (∀ v : Int, flexRead = some v → flexView flexRead = v) := by
  refine ⟨fun h => by simp [flexView, h], fun v h => by simp [flexView, h]⟩

/-- Claim C9 witness: the sentinel at a failing read, and a successful read of
level 8 returned unchanged. -/
theorem flexView_sentinel_witness :
    flexView none = -1 ∧ flexView (some 8) = 8 :=
  ⟨(flexView_sentinel none).1 rfl, (flexView_sentinel (some 8)).2 8 rfl⟩

/-- Claim C8: after any `setRegionOfInterest` call, applying the unrestricted
region clears the area-of-interest flag and erases the geometry node; a
rectangle of nonzero area sets the flag and writes the top-left and
bottom-right corners. -/
theorem setRegionOfInterest_spec (st : RoiState) (r : Rect) :
    (setRegionOfInterest (setRegionOfInterest st r)
        unrestrictedRect).useDisparityMapAreaOfInterest = false ∧
    (setRegionOfInterest (setRegionOfInterest st r) unrestrictedRect).areaOfInterest = none ∧
    (r.area ≠ 0 →
      setRegionOfInterest st r =
        { useDisparityMapAreaOfInterest := true,
          areaOfInterest := some ⟨r.x, r.y, r.x + r.width, r.y + r.height⟩ }) := by
  refine ⟨by simp [setRegionOfInterest, unrestrictedRect, Rect.area],
    by simp [setRegionOfInterest, unrestrictedRect, Rect.area],
    fun h => by simp [setRegionOfInterest, h]⟩

/-- Claim C8 witness: a concrete 100×80 rectangle enables the flag and writes
its corners. -/
theorem setRegionOfInterest_spec_witness :
    setRegionOfInterest ⟨false, none⟩ ⟨0, 0, 100, 80⟩ =
      { useDisparityMapAreaOfInterest := true,
        areaOfInterest := some ⟨0, 0, 100, 80⟩ } :=
  (setRegionOfInterest_spec ⟨false, none⟩ ⟨0, 0, 100, 80⟩).2.2 (by decide)

/-- Each `recordCalibrationPattern` run issues exactly one `CollectPattern`
command. -/
theorem countP_isCollectPattern_record (dev : Device) (flexRead : Option Int)
    (retrieved : String → Bool) :
    (recordCalibrationPattern dev flexRead retrieved).countP Action.isCollectPattern = 1 := by
  by_cases h : flexView flexRead > 0 <;>
    simp [recordCalibrationPattern, retrieve, cameraListParams, h,
      Action.isCollectPattern, List.countP_cons, List.countP_append]

/-- The pattern-recording loop of `detectCalibrationPattern` issues one
`CollectPattern` command per iteration. -/
theorem countP_isCollectPattern_loop (dev : Device) (flexReads : Nat → Option Int)
    (retrieved : String → Bool) (n : Nat) :
    ((List.range n).flatMap
      fun k => recordCalibrationPattern dev (flexReads k) retrieved).countP
        Action.isCollectPattern = n := by
  induction n with
  | zero => rfl
  | succ n ih =>
      rw [List.range_succ, List.flatMap_append, List.countP_append, ih]
      simp [countP_isCollectPattern_record]

/-- Claim C6: `detectCalibrationPattern` first discards all stored patterns
and records the requested number of samples (one `CollectPattern` command
each); the estimated pose's translation is rescaled from millimeters to
meters, and the active workspace transform is left-composed onto it iff the
workspace-compensation flag is set and a workspace calibration is active; with
the flag unset the result is the raw rescaled pose. -/
theorem detectCalibrationPattern_spec (dev : Device) (st : CamState)
    (flexReads : Nat → Option Int) (retrieved : String → Bool) (rawPose : Iso)
    (samples : Int) (ignore_calibration : Bool) :
    ((detectCalibrationPattern dev st flexReads retrieved rawPose samples
        ignore_calibration).1.head? = some (Action.execute "DiscardPatterns" [])) ∧
    ((detectCalibrationPattern dev st flexReads retrieved rawPose samples
        ignore_calibration).1.countP Action.isCollectPattern = samples.toNat) ∧
    (ignore_calibration = false →
      (detectCalibrationPattern dev st flexReads retrieved rawPose samples
        ignore_calibration).2 = Iso.scaleTrans (1 / 1000) rawPose) ∧
    (getWorkspaceCalibration st = none →
      (detectCalibrationPattern dev st flexReads retrieved rawPose samples
        ignore_calibration).2 = Iso.scaleTrans (1 / 1000) rawPose) ∧
    (∀ w : Iso, ignore_calibration = true → getWorkspaceCalibration st = some w →
      (detectCalibrationPattern dev st flexReads retrieved rawPose samples
        ignore_calibration).2 = w.comp (Iso.scaleTrans (1 / 1000) rawPose)) := by
  refine ⟨by simp [detectCalibrationPattern], ?_, fun h => by simp [detectCalibrationPattern, h],
    fun h => by simp [detectCalibrationPattern, h], fun w h hw => by simp [detectCalibrationPattern, h, hw]⟩
  by_cases h : flexView (flexReads samples.toNat) > 0 <;>
    simp [detectCalibrationPattern, h, List.countP_append, List.countP_cons,
      Action.isCollectPattern, countP_isCollectPattern_loop]

/-- Claim C6 witness: a concrete five-sample detection with the flag unset
and no workspace calibration active returns the raw rescaled pose. -/
theorem detectCalibrationPattern_spec_witness :
    (detectCalibrationPattern ⟨"ens", none⟩ ⟨none, Iso.id⟩ (fun _ => none)
        (fun _ => true) Iso.id 5 false).1.countP Action.isCollectPattern = (5 : Int).toNat ∧
    (detectCalibrationPattern ⟨"ens", none⟩ ⟨none, Iso.id⟩ (fun _ => none)
        (fun _ => true) Iso.id 5 false).2 = Iso.scaleTrans (1 / 1000) Iso.id :=
  ⟨(detectCalibrationPattern_spec ⟨"ens", none⟩ ⟨none, Iso.id⟩ (fun _ => none)
      (fun _ => true) Iso.id 5 false).2.1,
   (detectCalibrationPattern_spec ⟨"ens", none⟩ ⟨none, Iso.id⟩ (fun _ => none)
      (fun _ => true) Iso.id 5 false).2.2.1 rfl⟩

/-- Appending `"_frame"` to a serial never yields the empty string, so the
sentinel frame name written by `clearWorkspaceCalibration` is non-empty. -/
theorem serial_frame_ne_empty (s : String) : s ++ "_frame" ≠ "" := by
  intro h
  have h2 := congrArg String.length h
  rw [String.length_append] at h2
  simp at h2
  exact absurd h2.2 (by decide)

/-- Claim C7 counterexample: after `clearWorkspaceCalibration` on a session
with an active workspace calibration, `getWorkspaceCalibration` does *not*
return `none` — the explicitly written sentinel frame name `"<serial>_frame"`
is non-empty, which is the sole activity signal the getter checks. -/
theorem clearWorkspaceCalibration_cex :
    getWorkspaceCalibration
      (clearWorkspaceCalibration ⟨"ens", none⟩ id ⟨some "workspace", Iso.id⟩ false).2 ≠
      none := by
  decide

/-- Claim C7 (amended): `clearWorkspaceCalibration` issues no command and
returns unchanged when no workspace calibration is active; when one is active
it issues the `CalibrateWorkspace` command with an empty target name, then
performs a second explicit write setting the stored frame name to the sentinel
`"<serial>_frame"`, and persists iff the persist flag is set; afterwards the
stored frame name is the (non-empty) sentinel, so `getWorkspaceCalibration`
returns the stored link transform rescaled to meters rather than `none`. -/
theorem clearWorkspaceCalibration_amended (dev : Device) (eff : CamState → CamState)
    (st : CamState) (store : Bool) :
    (getWorkspaceCalibrationFrame st = "" →
      clearWorkspaceCalibration dev eff st store = ([], st)) ∧
    (getWorkspaceCalibrationFrame st ≠ "" →
      (clearWorkspaceCalibration dev eff st store).1 =
        [Action.execute "CalibrateWorkspace"
          [(camerasIdx 0, NxValue.str dev.serial), ([.item "Target"], NxValue.str "")],
         Action.setCam [.item "Link", .item "Target"]
           (NxValue.str (dev.serial ++ "_frame"))] ++
        (if store then storeWorkspaceCalibration dev else []) ∧
      getWorkspaceCalibrationFrame (clearWorkspaceCalibration dev eff st store).2 =
        dev.serial ++ "_frame" ∧
      getWorkspaceCalibration (clearWorkspaceCalibration dev eff st store).2 =
        some (Iso.scaleTrans (1 / 1000)
          (clearWorkspaceCalibration dev eff st store).2.link)) := by
  constructor
  · intro h
    simp [clearWorkspaceCalibration, h]
  · intro h
    simp only [clearWorkspaceCalibration, if_neg h]
    refine ⟨by simp, ?_, ?_⟩
    · simp [getWorkspaceCalibrationFrame]
    · simp only [getWorkspaceCalibration, getWorkspaceCalibrationFrame]
      rw [if_neg (serial_frame_ne_empty dev.serial)]

/-- Claim C7 witness: the no-op branch at a concrete inactive session, and the
active branch at a concrete active session. -/
theorem clearWorkspaceCalibration_amended_witness :
    clearWorkspaceCalibration ⟨"ens", none⟩ id ⟨none, Iso.id⟩ true = ([], ⟨none, Iso.id⟩) ∧
    getWorkspaceCalibrationFrame
      (clearWorkspaceCalibration ⟨"ens", none⟩ id ⟨some "workspace", Iso.id⟩ false).2 =
      "ens" ++ "_frame" :=
  ⟨(clearWorkspaceCalibration_amended ⟨"ens", none⟩ id ⟨none, Iso.id⟩ true).1 rfl,
   ((clearWorkspaceCalibration_amended ⟨"ens", none⟩ id
      ⟨some "workspace", Iso.id⟩ false).2 (by decide)).2.1⟩

/-- Claim C1 counterexample: with zero robot poses (fewer than 3 distinct
poses), `computeCalibration` still issues the `CalibrateHandEye` solver
command — no fail-fast validation precedes the solver invocation. -/
theorem computeCalibration_cex :
    ([] : List Iso).length < 3 ∧
    Action.execute "CalibrateHandEye" (handEyeParams [] true none none "") ∈
      (computeCalibration ⟨Iso.id, Iso.id, 0, 0⟩ [] true none none "").1 :=
  ⟨by decide, List.mem_singleton.mpr rfl⟩

/-- Claim C1 (amended): `computeCalibration` performs no pose-count
validation: even when fewer than 3 robot poses are supplied, it executes
exactly one `CalibrateHandEye` solver command carrying the supplied
parameters; degenerate inputs are left to the solver. -/
theorem computeCalibration_no_validation (resp : CalibResponse)
    (robot_poses : List Iso) (moving : Bool) (camera_guess pattern_guess : Option Iso)
    (target : String) (_h : robot_poses.length < 3) :
    (computeCalibration resp robot_poses moving camera_guess pattern_guess target).1 =
      [Action.execute "CalibrateHandEye"
        (handEyeParams robot_poses moving camera_guess pattern_guess target)] := rfl

/-- Claim C1 witness: two robot poses are fewer than 3, yet the solver command
is the (only) command issued. -/
theorem computeCalibration_no_validation_witness :
    [Iso.id, Iso.id].length < 3 ∧
    (computeCalibration ⟨Iso.id, Iso.id, 0, 0⟩ [Iso.id, Iso.id] false none none "").1 =
      [Action.execute "CalibrateHandEye" (handEyeParams [Iso.id, Iso.id] false none none "")] :=
  ⟨by decide,
   computeCalibration_no_validation ⟨Iso.id, Iso.id, 0, 0⟩ [Iso.id, Iso.id] false
     none none "" (by decide)⟩

/-- Claim C2: every supplied pose reaches the `CalibrateHandEye` parameters
with its translation scaled by 1000 (the guesses under `Link` and
`PatternPose`, each robot pose under `Transformations[i]`); on success the
read-back link transform is inverted and, like the solved pattern pose, has
its translation rescaled by 1/1000, and both are returned with the solver's
iteration count and reprojection error. -/
theorem computeCalibration_scaling (resp : CalibResponse) (robot_poses : List Iso)
    (moving : Bool) (camera_guess pattern_guess : Option Iso) (target : String) :
    ((computeCalibration resp robot_poses moving camera_guess pattern_guess target).1 =
      [Action.execute "CalibrateHandEye"
        (handEyeParams robot_poses moving camera_guess pattern_guess target)]) ∧
    (∀ g : Iso, camera_guess = some g →
      ([PathItem.item "Link"], NxValue.pose (Iso.scaleTrans 1000 g)) ∈
        handEyeParams robot_poses moving camera_guess pattern_guess target) ∧
    (∀ g : Iso, pattern_guess = some g →
      ([PathItem.item "PatternPose"], NxValue.pose (Iso.scaleTrans 1000 g)) ∈
        handEyeParams robot_poses moving camera_guess pattern_guess target) ∧
    (∀ i : Nat, ∀ hi : i < robot_poses.length,
      ([PathItem.item "Transformations", PathItem.idx i],
       NxValue.pose (Iso.scaleTrans 1000 (robot_poses.get ⟨i, hi⟩))) ∈
        handEyeParams robot_poses moving camera_guess pattern_guess target) ∧
    ((computeCalibration resp robot_poses moving camera_guess pattern_guess target).2 =
      { camera_pose := Iso.scaleTrans (1 / 1000) resp.link.inverse,
        pattern_pose := Iso.scaleTrans (1 / 1000) resp.patternPose,
        iterations := resp.iterations,
        reprojectionError := resp.reprojectionError }) := by
  refine ⟨rfl, ?_, ?_, ?_, rfl⟩
  · intro g hg
    simp [handEyeParams, hg]
  · intro g hg
    simp [handEyeParams, hg]
  · intro i hi
    have : ([PathItem.item "Transformations", PathItem.idx i],
        NxValue.pose (Iso.scaleTrans 1000 (robot_poses.get ⟨i, hi⟩))) ∈
        robotPoseParams robot_poses := by
      refine List.mem_map.2 ⟨i, List.mem_range.2 hi, ?_⟩
      rw [List.getD_eq_getElem]
      · simp
      · exact hi
    simp [handEyeParams]
    tauto

/-- Claim C2 witness: a concrete calibration with one guess and three robot
poses; the guess and the robot pose at index 2 appear scaled by 1000 in the
solver parameters, and the packaged result carries the rescaled inverted
link. -/
theorem computeCalibration_scaling_witness :
    (([PathItem.item "Link"], NxValue.pose (Iso.scaleTrans 1000 Iso.id)) ∈
      handEyeParams [Iso.id, Iso.id, Iso.id] true (some Iso.id) none "Hand") ∧
    (([PathItem.item "Transformations", PathItem.idx 2],
      NxValue.pose (Iso.scaleTrans 1000 (([Iso.id, Iso.id, Iso.id] : List Iso).get
        ⟨2, by decide⟩))) ∈
      handEyeParams [Iso.id, Iso.id, Iso.id] true (some Iso.id) none "Hand") ∧
    ((computeCalibration ⟨Iso.id, Iso.id, 7, 1/2⟩ [Iso.id, Iso.id, Iso.id] true
        (some Iso.id) none "Hand").2 =
      { camera_pose := Iso.scaleTrans (1 / 1000) (Iso.inverse Iso.id),
        pattern_pose := Iso.scaleTrans (1 / 1000) Iso.id,
        iterations := 7,
        reprojectionError := 1/2 }) :=
  ⟨(computeCalibration_scaling ⟨Iso.id, Iso.id, 7, 1/2⟩ [Iso.id, Iso.id, Iso.id] true
      (some Iso.id) none "Hand").2.1 Iso.id rfl,
   (computeCalibration_scaling ⟨Iso.id, Iso.id, 7, 1/2⟩ [Iso.id, Iso.id, Iso.id] true
      (some Iso.id) none "Hand").2.2.2.1 2 (by decide),
   (computeCalibration_scaling ⟨Iso.id, Iso.id, 7, 1/2⟩ [Iso.id, Iso.id, Iso.id] true
      (some Iso.id) none "Hand").2.2.2.2⟩

end DrEnsenso
